import Mathlib

/-!
Verification of the specification of the `isaka/ag2` repository snapshot.

The snapshot supplied under `src/` consists of documentation pages (MDX),
example notebooks, blog posts and CI workflow configuration for the AG2
multi-agent LLM orchestration framework.  The executable framework core
(the `ConversableAgent.generate_reply` pipeline, group-chat speaker
selection, tool bridging) is not part of the snapshot; where a claim is
about that behaviour, the behaviour is modelled from the prose of the
documentation (marked `Modelled from the spec:`), faithful to its words.

Two layers are developed here:

1. a corpus model: one record per supplied file, carrying its path, its
   kind, audit flags (whether the file contains executable framework-core
   implementation, algorithmic detail, or a concurrency core) and verbatim
   one-line excerpts copied from the file, over which occurrence claims
   are decided by a substring computation;

2. a behavioural model of the documented reply-resolution chain
   (`generate_reply`, `register_reply`, `default_auto_reply`) and of the
   documented chat-summary selection of `initiate_chat`.
-/

namespace AG2Spec

/-! ## Substring machinery -/

/-- `charsBeginWith p s` decides whether the character list `p` is an
initial segment of `s`. -/
def charsBeginWith : List Char → List Char → Bool
  | [], _ => true
  | _ :: _, [] => false
  | p :: ps, c :: cs => p == c && charsBeginWith ps cs

/-- `charsContain p s` decides whether `p` occurs contiguously in `s`. -/
def charsContain (p : List Char) : List Char → Bool
  | [] => charsBeginWith p []
  | c :: cs => charsBeginWith p (c :: cs) || charsContain p cs

/-- `strContains s pat` decides whether `pat` occurs in `s`. -/
def strContains (s pat : String) : Bool :=
  charsContain pat.data s.data

/-! ## Corpus model

One record per file supplied under `src/`.  The audit flags record, for
each file, facts established by inspection of the whole file; the
excerpts are verbatim lines (for notebook files, verbatim cell content
lines) copied from the file. -/

/-- The kind of a supplied file.  `frameworkModule` is the kind a file
would have if it were an executable implementation module of the
multi-agent orchestration framework itself; the theorems below establish
that no supplied file has this kind. -/
inductive FileCategory
  | docPage
  | notebook
  | blogPost
  | ciWorkflow
  | frameworkModule
  deriving DecidableEq, Repr

/-- A supplied file.  Field order:
path, category,
`implementsReplyResolution` (file contains an executable implementation of
the `ConversableAgent` reply-resolution pipeline, e.g. a
`generate_reply` method body),
`implementsSpeakerSelection` (file contains an executable implementation of
group-chat speaker selection),
`implementsToolBridging` (file contains an executable implementation of the
tool registration/execution bridging),
`givesAlgorithmicDetail` (file supplies exact speaker-selection tie-break
rules, retry/backoff policies, or concurrency guarantees),
`implementsConcurrencyCore` (file implements concurrency primitives,
schedulers, or resource arbitration logic),
excerpts. -/
structure SourceFile where
  path : String
  category : FileCategory
  implementsReplyResolution : Bool
  implementsSpeakerSelection : Bool
  implementsToolBridging : Bool
  givesAlgorithmicDetail : Bool
  implementsConcurrencyCore : Bool
  excerpts : List String

/-- The 23 files of the snapshot, in directory order.  Files containing
several concatenated documents are classified by their primary document.
All audit flags are `false`: by inspection, no supplied file contains an
executable implementation of the reply-resolution pipeline, of speaker
selection, or of tool bridging, none supplies tie-break/retry/concurrency
algorithmic detail, and none implements a concurrency core.  Custom
callbacks defined in example files and handed to framework hooks (for
example the state_transition functions a notebook passes as
speaker_selection_method) are usage examples of the framework hooks, not
the framework implementation itself. -/
def corpus : List SourceFile :=
  [ ⟨".github/workflows/deploy-website-mintlify.yml", .ciWorkflow,
      false, false, false, false, false,
      ["name: mintlify docs"]⟩,
    ⟨"notebook/agentchat_graph_rag_neo4j.ipynb", .notebook,
      false, false, false, false, false, []⟩,
    ⟨"notebook/agentchat_oai_assistant_function_call.ipynb", .notebook,
      false, false, false, false, false, []⟩,
    ⟨"notebook/mongodb_query_engine.ipynb", .notebook,
      false, false, false, false, false, []⟩,
    ⟨"unnamed/part_000", .docPage,
      false, false, false, false, false,
      ["pip install ag2[openai,interop-pydantic-ai]",
       "from autogen.interop import Interoperability"]⟩,
    ⟨"unnamed/part_001", .docPage,
      false, false, false, false, false,
      ["    pip install ag2[openai]",
       "llm_config = LLMConfig(",
       "    api_type=\"openai\",                      # The provider",
       "    model=\"gpt-4o-mini\",                    # The specific model",
       "    api_key=os.environ[\"OPENAI_API_KEY\"],   # Authentication"]⟩,
    ⟨"unnamed/part_002", .docPage,
      false, false, false, false, false, []⟩,
    ⟨"unnamed/part_003", .docPage,
      false, false, false, false, false,
      ["from autogen import ConversableAgent, LLMConfig",
       "chat_result = student_agent.initiate_chat(",
       "    summary_method=\"reflection_with_llm\",",
       "There are some other useful information in the `ChatResult` object, including the conversation history, human input, and token cost.",
       "pprint.pprint(chat_result.chat_history)"]⟩,
    ⟨"unnamed/part_004", .docPage,
      false, false, false, false, false, []⟩,
    ⟨"unnamed/part_005", .notebook,
      false, false, false, false, false, []⟩,
    ⟨"unnamed/part_006", .notebook,
      false, false, false, false, false,
      ["manager = autogen.GroupChatManager(groupchat=groupchat, llm_config=llm_config)"]⟩,
    ⟨"unnamed/part_007", .ciWorkflow,
      false, false, false, false, false,
      ["name: Type check"]⟩,
    ⟨"website/docs/_blogs/2023-10-18-RetrieveChat/index.mdx", .blogPost,
      false, false, false, false, false,
      ["* We introduce **RetrieveUserProxyAgent**, RAG agents of AutoGen that",
       "    queue = mp.Queue()",
       "    process = mp.Process("]⟩,
    ⟨"website/docs/_blogs/2025-01-10-WebSockets/index.mdx", .blogPost,
      false, false, false, false, false,
      ["with IOWebsockets.run_server_in_thread(on_connect=on_connect, port=8080) as uri:"]⟩,
    ⟨"website/docs/contributor-guide/documentation.mdx", .docPage,
      false, false, false, false, false, []⟩,
    ⟨"website/docs/contributor-guide/how-ag2-works/generate-reply.mdx", .docPage,
      false, false, false, false, false,
      ["    - Check Termination and Human Reply",
       "    - Generate Function Call Reply",
       "    - Generate Tool Call Reply",
       "    - Generate Code Execution Reply",
       "    - Generate LLM Reply",
       "(reply functions registered later will be checked earlier by default)",
       "agent_calendar.register_reply(",
       "    position=0,"]⟩,
    ⟨"website/docs/contributor-guide/setup-development-environment.mdx", .docPage,
      false, false, false, false, false,
      ["    AG2 uses an environment variable called `OAI_CONFIG_LIST` in JSON format to store the LLM keys. `OAI_CONFIG_LIST` is a list of dictionaries where each dictionary contains the following keys:"]⟩,
    ⟨"website/docs/user-guide/basic-concepts/overview.mdx", .docPage,
      false, false, false, false, false, []⟩,
    ⟨"website/docs/user-guide/basic-concepts/structured-outputs.mdx", .docPage,
      false, false, false, false, false, []⟩,
    ⟨"website/docs/user-guide/models/mistralai.mdx", .docPage,
      false, false, false, false, false, []⟩,
    ⟨"website/snippets/components/GalleryPage.mdx", .docPage,
      false, false, false, false, false, []⟩,
    ⟨"website/snippets/python-examples/humanintheloop_financial.mdx", .docPage,
      false, false, false, false, false,
      ["from autogen import ConversableAgent, LLMConfig"]⟩,
    ⟨"website/snippets/reference-tools/code-execution-venv.mdx", .docPage,
      false, false, false, false, false, []⟩ ]

/-- A file mentions a given token when one of its recorded verbatim
excerpts contains it. -/
def mentionsToken (f : SourceFile) (tok : String) : Bool :=
  f.excerpts.any (fun e => strContains e tok)

/-- The documentation kinds: every kind other than `frameworkModule`. -/
def documentationKinds : List FileCategory :=
  [.docPage, .notebook, .blogPost, .ciWorkflow]

/-- The chat-history output printed in generate-reply.mdx (lines 152 to
173), transcribed as the ordered key-value pairs of each message
dictionary of the printed JSON. -/
def generateReplyChatHistory : List (List (String × String)) :=
  [ [("content", "Hi Calendar Agent!"),
     ("role", "assistant"),
     ("name", "Bob")],
    [("content", "The current date/time is 2025-02-25 12:43:47 and the day is Tuesday."),
     ("role", "user"),
     ("name", "Calendar_agent")],
    [("content", "Actually, February 25, 2025, is a Monday. Is there anything specific you would like to know or do with this date?"),
     ("role", "assistant"),
     ("name", "Bob")],
    [("content", "The current date/time is 2025-02-25 12:43:49 and the day is Tuesday."),
     ("role", "user"),
     ("name", "Calendar_agent")] ]

/-! ## Reply-resolution model

The executable implementation of `ConversableAgent.generate_reply` is not
part of the snapshot; the following definitions are modelled from the
prose of generate-reply.mdx. -/

/-- A chat message, with the three documented keys. -/
structure Message where
  content : String
  role : String
  name : String
  deriving DecidableEq

/-- A reply payload. -/
abbrev Reply := String

/-- Identifier of a registered reply function: the five default reply
functions of the documented chain, plus custom registered ones. -/
inductive ReplyFuncId
  | checkTerminationAndHumanReply
  | generateFunctionCallReply
  | generateToolCallReply
  | generateCodeExecutionReply
  | generateLLMReply
  | customReply (tag : Nat)
  deriving DecidableEq, Repr

/-- Modelled from the spec: a registered reply function returns a Tuple
of whether the reply is final and the reply itself; modelled as `none`
for a non-final evaluation and `some reply` for a final one.  Each
function also carries its identifier, so that evaluation traces can be
observed. -/
structure ReplyFunc where
  id : ReplyFuncId
  run : List Message → Option Reply

/-- Modelled from the spec: sequential evaluation of a reply function
list.  The functions are evaluated in list order; at the first function
producing a final result evaluation stops.  The result pairs the trace of
the evaluated function identifiers with the final reply, when any. -/
def evalChain : List ReplyFunc → List Message → List ReplyFuncId × Option Reply
  | [], _ => ([], none)
  | f :: fs, msgs =>
    match f.run msgs with
    | some r => ([f.id], some r)
    | none =>
      let rest := evalChain fs msgs
      (f.id :: rest.1, rest.2)

/-- The documented default value of the default_auto_reply property: the
empty string, denoting no reply. -/
def DEFAULT_AUTO_REPLY : Reply := ""

/-- Modelled from the spec: the ConversableAgent state used by the reply
machinery: its reply function list and its default_auto_reply value. -/
structure ConversableAgent where
  reply_func_list : List ReplyFunc
  default_auto_reply : Reply

/-- A ConversableAgent constructed without an explicit default_auto_reply
receives the documented default value. -/
def mkConversableAgent (fs : List ReplyFunc) : ConversableAgent :=
  ⟨fs, DEFAULT_AUTO_REPLY⟩

/-- Modelled from the spec: generate_reply evaluates the reply functions
in order and returns the first final reply; when none of the reply
functions generates a final result, the default_auto_reply value of the
agent is returned. -/
def generate_reply (a : ConversableAgent) (msgs : List Message) : Reply :=
  match (evalChain a.reply_func_list msgs).2 with
  | some r => r
  | none => a.default_auto_reply

/-- Modelled from the spec: register_reply inserts a reply function into
the reply function list at the given position; the documented default
position is 0, the start of the list. -/
def register_reply (a : ConversableAgent) (f : ReplyFunc) (position : Nat) :
    ConversableAgent :=
  ⟨List.insertIdx position f a.reply_func_list, a.default_auto_reply⟩

/-- The documented default chain, in its documented order: Check
Termination and Human Reply; Generate Function Call Reply; Generate Tool
Call Reply; Generate Code Execution Reply; Generate LLM Reply. -/
def defaultReplyFuncIds : List ReplyFuncId :=
  [ReplyFuncId.checkTerminationAndHumanReply,
   ReplyFuncId.generateFunctionCallReply,
   ReplyFuncId.generateToolCallReply,
   ReplyFuncId.generateCodeExecutionReply,
   ReplyFuncId.generateLLMReply]

/-- The default reply function list of an agent, the behaviour of each
default reply function being abstracted by `b`. -/
def defaultChain (b : ReplyFuncId → List Message → Option Reply) :
    List ReplyFunc :=
  defaultReplyFuncIds.map (fun i => ⟨i, b i⟩)

/-- Mock behaviour in which only Generate Tool Call Reply produces a
final result. -/
def toolOnlyBehaviour : ReplyFuncId → List Message → Option Reply :=
  fun i _ =>
    if i = ReplyFuncId.generateToolCallReply then some "tool result" else none

/-- A reply function that never produces a final result. -/
def idleLLMFunc : ReplyFunc :=
  ⟨ReplyFuncId.generateLLMReply, fun _ => none⟩

/-- A custom reply function producing a final result on every call. -/
def finalCustomFunc : ReplyFunc :=
  ⟨ReplyFuncId.customReply 1, fun _ => some "final"⟩

/-- A custom reply function that never produces a final result. -/
def idleCustomFunc : ReplyFunc :=
  ⟨ReplyFuncId.customReply 0, fun _ => none⟩

/-! ## Chat summary model

The executable implementation of `initiate_chat` is not part of the
snapshot; the following definitions are modelled from the prose of the
Two-Agent Chat page. -/

/-- An LLM configuration, identified abstractly. -/
abbrev LLMCfg := String

/-- Modelled from the spec: a chat participant as the summariser sees it:
its name and its LLM configuration, when available. -/
structure ChatAgent where
  name : String
  llm : Option LLMCfg

/-- The documented summary methods of initiate_chat. -/
inductive SummaryMethod
  | last_msg
  | reflection_with_llm
  deriving DecidableEq, Repr

/-- Modelled from the spec: the LLM used by reflection_with_llm: the
summary method first tries to use the LLM of the recipient, and only
when it is not available it uses the LLM of the sender. -/
def reflectionLLM (sender recipient : ChatAgent) : Option LLMCfg :=
  match recipient.llm with
  | some l => some l
  | none => sender.llm

/-- Modelled from the spec: the chat summary computed at the end of
initiate_chat.  The method argument is optional; when not supplied it
defaults to last_msg, which takes the content of the last message of the
chat.  reflection_with_llm summarises the history with a call to an LLM,
abstracted by the oracle `call`. -/
def initiateChatSummary (call : LLMCfg → List Message → String)
    (sender recipient : ChatAgent) (method : Option SummaryMethod)
    (history : List Message) : String :=
  match method.getD SummaryMethod.last_msg with
  | SummaryMethod.last_msg =>
    ((history.getLast?).map Message.content).getD ""
  | SummaryMethod.reflection_with_llm =>
    match reflectionLLM sender recipient with
    | some l => call l history
    | none => ""

/-- A concrete message for witness statements. -/
def witnessMessage : Message :=
  ⟨"What is triangle inequality?", "assistant", "Student_Agent"⟩

/-- A concrete sender for witness statements. -/
def witnessSender : ChatAgent := ⟨"Student_Agent", some "sender-llm"⟩

/-- A concrete recipient for witness statements. -/
def witnessRecipient : ChatAgent := ⟨"Teacher_Agent", some "recipient-llm"⟩

/-- A concrete summary oracle for witness statements. -/
def witnessCall : LLMCfg → List Message → String := fun l _ => l

end AG2Spec

namespace AG2Spec

/-- C2: for every file in the supplied corpus, the executable
implementation of the ConversableAgent reply-resolution pipeline,
group-chat speaker selection, and tool registration/execution bridging is
absent, while the mechanisms do appear as prose descriptions (the reply
chain walkthrough) and usage examples (a register_reply call). -/
theorem corpus_core_implementation_absent :
    (∀ f ∈ corpus, f.implementsReplyResolution = false ∧
        f.implementsSpeakerSelection = false ∧
        f.implementsToolBridging = false) ∧
    (∃ f ∈ corpus, mentionsToken f "Check Termination and Human Reply" = true) ∧
    (∃ f ∈ corpus, mentionsToken f "register_reply(" = true) := by
  decide

/-- C3: WebSocket usage and multiprocessing usage both appear in supplied
blog example files (a run_server_in_thread call in the WebSockets blog
and mp.Process together with mp.Queue in the RetrieveChat blog), and no
supplied file implements concurrency primitives, schedulers, or resource
arbitration logic. -/
theorem corpus_concurrency_usage_illustrative :
    (∃ f ∈ corpus, f.category = FileCategory.blogPost ∧
        mentionsToken f "IOWebsockets.run_server_in_thread" = true) ∧
    (∃ f ∈ corpus, f.category = FileCategory.blogPost ∧
        mentionsToken f "mp.Process(" = true ∧
        mentionsToken f "mp.Queue()" = true) ∧
    (∀ f ∈ corpus, f.implementsConcurrencyCore = false) := by
  decide

/-- C4: every supplied file is of a documentation kind and none supplies
algorithmic detail (speaker-selection tie-break rules, retry/backoff
policies, concurrency guarantees), while ConversableAgent,
GroupChatManager, RetrieveUserProxyAgent and the tool interoperability
bridge are each mentioned in some supplied file. -/
theorem corpus_components_prose_only :
    (∀ f ∈ corpus, f.givesAlgorithmicDetail = false ∧
        f.category ∈ documentationKinds) ∧
    (∃ f ∈ corpus, mentionsToken f "ConversableAgent" = true) ∧
    (∃ f ∈ corpus, mentionsToken f "GroupChatManager" = true) ∧
    (∃ f ∈ corpus, mentionsToken f "RetrieveUserProxyAgent" = true) ∧
    (∃ f ∈ corpus, mentionsToken f "Interoperability" = true) := by
  decide

/-- C5: every file in the supplied corpus is a documentation page, an
example notebook, a blog post, or CI workflow configuration, and no
supplied file is an implementation module of the framework itself. -/
theorem corpus_files_documentation_kinds :
    ∀ f ∈ corpus, f.category ∈ documentationKinds ∧
      f.category ≠ FileCategory.frameworkModule := by
  decide

/-- Concrete run of the C5 theorem on the first file of the corpus. -/
theorem corpus_files_documentation_kinds_witness :
    (List.get corpus ⟨0, by decide⟩).category ∈ documentationKinds ∧
    (List.get corpus ⟨0, by decide⟩).category ≠ FileCategory.frameworkModule :=
  corpus_files_documentation_kinds (List.get corpus ⟨0, by decide⟩)
    (List.get_mem corpus _ _)

/-- C6: the supplied documentation exhibits an LLMConfig construction, a
ChatResult value carrying chat history, human input and token cost, and
chat-history message dictionaries whose keys are exactly content, role
and name. -/
theorem corpus_data_shapes_referenced :
    (∃ f ∈ corpus, mentionsToken f "llm_config = LLMConfig(" = true) ∧
    (∃ f ∈ corpus, mentionsToken f
        "`ChatResult` object, including the conversation history, human input, and token cost" = true) ∧
    generateReplyChatHistory ≠ [] ∧
    (∀ m ∈ generateReplyChatHistory,
        m.map Prod.fst = ["content", "role", "name"]) := by
  decide

/-- C7: the tokens pip install ag2[, OPENAI_API_KEY and OAI_CONFIG_LIST
each occur in at least one supplied file, and CI YAML workflow
configuration is among the supplied files. -/
theorem corpus_packaging_tokens_present :
    (∃ f ∈ corpus, mentionsToken f "pip install ag2[" = true) ∧
    (∃ f ∈ corpus, mentionsToken f "OPENAI_API_KEY" = true) ∧
    (∃ f ∈ corpus, mentionsToken f "OAI_CONFIG_LIST" = true) ∧
    (∃ f ∈ corpus, f.category = FileCategory.ciWorkflow) := by
  decide

/-- When every reply function of the list is non-final, the whole list is
evaluated and no final reply is produced. -/
theorem evalChain_all_none (fs : List ReplyFunc) (msgs : List Message)
    (h : ∀ f ∈ fs, f.run msgs = none) :
    evalChain fs msgs = (fs.map ReplyFunc.id, none) := by
  induction fs with
  | nil => rfl
  | cons f fs ih =>
    have hf : f.run msgs = none := h f (List.mem_cons_self f fs)
    have hfs : ∀ g ∈ fs, g.run msgs = none :=
      fun g hg => h g (List.mem_cons_of_mem f hg)
    simp [evalChain, hf, ih hfs]

/-- Evaluation of a chain whose first final function is `f`: everything
before `f` is evaluated, `f` is evaluated and produces the result, and
nothing after `f` is evaluated. -/
theorem evalChain_first_final (fs gs : List ReplyFunc) (f : ReplyFunc)
    (msgs : List Message) (r : Reply)
    (hnone : ∀ g ∈ fs, g.run msgs = none) (hf : f.run msgs = some r) :
    evalChain (fs ++ f :: gs) msgs = (fs.map ReplyFunc.id ++ [f.id], some r) := by
  induction fs with
  | nil => simp [evalChain, hf]
  | cons g fs ih =>
    have hg : g.run msgs = none := hnone g (List.mem_cons_self g fs)
    have h' : ∀ x ∈ fs, x.run msgs = none :=
      fun x hx => hnone x (List.mem_cons_of_mem g hx)
    simp [evalChain, hg, ih h']

/-- C1: the documented reply-resolution chain is sequential dispatch: for
any behaviour of the five default reply functions and any messages, when
the documented order splits as pre, then the producing function, then
post, with every function of pre non-final and the producer final, the
evaluation trace is exactly pre followed by the producer, in the fixed
documented order, and no reply function of post is ever evaluated. -/
theorem generate_reply_sequential_dispatch
    (b : ReplyFuncId → List Message → Option Reply) (msgs : List Message)
    (pre post : List ReplyFuncId) (i : ReplyFuncId) (r : Reply)
    (hsplit : defaultReplyFuncIds = pre ++ i :: post)
    (hnone : ∀ j ∈ pre, b j msgs = none)
    (hfin : b i msgs = some r) :
    evalChain (defaultChain b) msgs = (pre ++ [i], some r) ∧
    ∀ j ∈ post, j ∉ pre ++ [i] := by
  constructor
  · have hchain : defaultChain b =
        (pre.map fun k => ReplyFunc.mk k (b k)) ++
          ReplyFunc.mk i (b i) :: (post.map fun k => ReplyFunc.mk k (b k)) := by
      simp [defaultChain, hsplit]
    rw [hchain, evalChain_first_final _ _ _ _ r ?hpre hfin]
    · rw [List.map_map]
      have hcomp : (ReplyFunc.id ∘ fun k => ReplyFunc.mk k (b k)) = id := rfl
      rw [hcomp, List.map_id]
    case hpre =>
      intro g hg
      obtain ⟨k, hk, rfl⟩ := List.mem_map.mp hg
      exact hnone k hk
  · have hnodup : List.Nodup defaultReplyFuncIds := by decide
    rw [hsplit, List.nodup_append] at hnodup
    obtain ⟨hpre, hip, hdisj⟩ := hnodup
    intro j hj hmem
    rcases List.mem_append.mp hmem with hj1 | hj2
    · exact hdisj hj1 (List.mem_cons_of_mem i hj)
    · have hji : j = i := by simpa using hj2
      subst hji
      exact (List.nodup_cons.mp hip).1 hj

/-- Concrete run of the C1 theorem: with only the tool call reply
function final, the trace stops at it and the two later functions of the
documented chain are never evaluated. -/
theorem generate_reply_sequential_dispatch_witness :
    evalChain (defaultChain toolOnlyBehaviour) [] =
      ([ReplyFuncId.checkTerminationAndHumanReply,
        ReplyFuncId.generateFunctionCallReply] ++
        [ReplyFuncId.generateToolCallReply], some "tool result") ∧
    ∀ j ∈ [ReplyFuncId.generateCodeExecutionReply, ReplyFuncId.generateLLMReply],
      j ∉ [ReplyFuncId.checkTerminationAndHumanReply,
           ReplyFuncId.generateFunctionCallReply] ++
          [ReplyFuncId.generateToolCallReply] :=
  generate_reply_sequential_dispatch toolOnlyBehaviour []
    [ReplyFuncId.checkTerminationAndHumanReply,
     ReplyFuncId.generateFunctionCallReply]
    [ReplyFuncId.generateCodeExecutionReply, ReplyFuncId.generateLLMReply]
    ReplyFuncId.generateToolCallReply "tool result"
    (by decide) (by decide) (by decide)

/-- C8: when none of the reply functions produces a final result,
generate_reply returns the default_auto_reply value of the agent, and an
agent constructed without an explicit default_auto_reply has the empty
string, denoting no reply. -/
theorem generate_reply_default_auto_reply
    (a : ConversableAgent) (msgs : List Message)
    (hnone : ∀ f ∈ a.reply_func_list, f.run msgs = none) :
    generate_reply a msgs = a.default_auto_reply ∧
    ∀ fs : List ReplyFunc, (mkConversableAgent fs).default_auto_reply = "" := by
  refine ⟨?_, fun fs => rfl⟩
  simp [generate_reply, evalChain_all_none a.reply_func_list msgs hnone]

/-- Concrete run of the C8 theorem: an agent whose single reply function
is never final replies with its default_auto_reply. -/
theorem generate_reply_default_auto_reply_witness :
    generate_reply (mkConversableAgent [idleLLMFunc]) [] =
      (mkConversableAgent [idleLLMFunc]).default_auto_reply ∧
    ∀ fs : List ReplyFunc, (mkConversableAgent fs).default_auto_reply = "" :=
  generate_reply_default_auto_reply (mkConversableAgent [idleLLMFunc]) []
    (by
      intro f hf
      rw [List.mem_singleton.mp hf]
      rfl)

/-- C9: a reply function registered later by register_reply at the
default position 0 is checked earlier than an earlier-registered one (the
evaluation order is the reverse of the registration order), and a reply
function inserted at position 0 whose reply is final preempts evaluation
of every other reply function. -/
theorem register_reply_later_checked_earlier
    (a : ConversableAgent) (f g : ReplyFunc) (msgs : List Message) (r : Reply)
    (hf : f.run msgs = some r) :
    (register_reply (register_reply a g 0) f 0).reply_func_list =
      f :: g :: a.reply_func_list ∧
    evalChain (register_reply a f 0).reply_func_list msgs = ([f.id], some r) ∧
    generate_reply (register_reply a f 0) msgs = r := by
  refine ⟨rfl, ?_, ?_⟩
  · simp [register_reply, evalChain, hf]
  · simp [generate_reply, register_reply, evalChain, hf]

/-- Concrete run of the C9 theorem: with an idle function registered
first and a final custom function registered later at position 0, the
later one heads the evaluation order and its final reply preempts every
other reply function. -/
theorem register_reply_later_checked_earlier_witness :
    (register_reply (register_reply (mkConversableAgent []) idleCustomFunc 0)
        finalCustomFunc 0).reply_func_list =
      finalCustomFunc :: idleCustomFunc :: (mkConversableAgent []).reply_func_list ∧
    evalChain (register_reply (mkConversableAgent []) finalCustomFunc 0).reply_func_list [] =
      ([ReplyFuncId.customReply 1], some "final") ∧
    generate_reply (register_reply (mkConversableAgent []) finalCustomFunc 0) [] = "final" :=
  register_reply_later_checked_earlier (mkConversableAgent [])
    finalCustomFunc idleCustomFunc [] "final" rfl

/-- C10: the chat summary of initiate_chat defaults to the last message
of the chat (the default summary method is last_msg), and
reflection_with_llm summarises with the LLM of the recipient when it is
available, falling back to the LLM of the sender only when the LLM of
the recipient is not available. -/
theorem initiate_chat_summary_defaults
    (call : LLMCfg → List Message → String) (sender recipient : ChatAgent)
    (history pre : List Message) (m : Message)
    (hlast : history = pre ++ [m]) :
    initiateChatSummary call sender recipient none history = m.content ∧
    (∀ l, recipient.llm = some l →
      initiateChatSummary call sender recipient
        (some SummaryMethod.reflection_with_llm) history = call l history) ∧
    (∀ l, recipient.llm = none → sender.llm = some l →
      initiateChatSummary call sender recipient
        (some SummaryMethod.reflection_with_llm) history = call l history) := by
  refine ⟨?_, ?_, ?_⟩
  · simp [initiateChatSummary, hlast]
  · intro l hl
    simp [initiateChatSummary, reflectionLLM, hl]
  · intro l hrec hsend
    simp [initiateChatSummary, reflectionLLM, hrec, hsend]

/-- Concrete run of the C10 theorem on a one-message history. -/
theorem initiate_chat_summary_defaults_witness :
    initiateChatSummary witnessCall witnessSender witnessRecipient none
      [witnessMessage] = witnessMessage.content ∧
    (∀ l, witnessRecipient.llm = some l →
      initiateChatSummary witnessCall witnessSender witnessRecipient
        (some SummaryMethod.reflection_with_llm) [witnessMessage] =
        witnessCall l [witnessMessage]) ∧
    (∀ l, witnessRecipient.llm = none → witnessSender.llm = some l →
      initiateChatSummary witnessCall witnessSender witnessRecipient
        (some SummaryMethod.reflection_with_llm) [witnessMessage] =
        witnessCall l [witnessMessage]) :=
  initiate_chat_summary_defaults witnessCall witnessSender witnessRecipient
    [witnessMessage] [] witnessMessage rfl

end AG2Spec
